import Mathlib

/-!
Verification development for the retrieval/embedding subsystem
(`backend/app/services/embedding_service.py`, `backend/app/api/search.py`,
`backend/app/api/embeddings.py`).

Python is embedded shallowly: the database is explicit data (table rows,
outcomes of SQL calls), exceptions are `Except`, floats are `ℚ`.  The SHA-256
primitive comes from the Python standard library, not from this repository, so
it is carried as an explicit function parameter `sha256 : List Nat → List Nat`
(bytes to bytes); every theorem quantifies over it.
-/

/-- UTF-8 bytes of a string, as `Nat`s (models `str.encode("utf-8")`). -/
def strBytes (s : String) : List Nat :=
  s.toUTF8.toList.map (fun b => b.toNat)

/-- Model of `i.to_bytes(4, "big")`: big-endian 4-byte encoding (for `i < 2^32`). -/
def toBytesBE4 (i : Nat) : List Nat :=
  [i / 2 ^ 24 % 256, i / 2 ^ 16 % 256, i / 2 ^ 8 % 256, i % 256]

/-- Model of `int.from_bytes(bs, "big")`. -/
def fromBytesBE (bs : List Nat) : Nat :=
  bs.foldl (fun acc b => acc * 256 + b) 0

/-- One hex digit. -/
def hexChar (n : Nat) : Char :=
  if n < 10 then Char.ofNat (48 + n) else Char.ofNat (87 + n)

/-- Two lowercase hex digits of one byte. -/
def byteHex (b : Nat) : String :=
  String.mk [hexChar (b / 16 % 16), hexChar (b % 16)]

/-- Hex digest (`.hexdigest()`) of a digest given as bytes. -/
def hexDigest (bs : List Nat) : String :=
  String.join (bs.map byteHex)

/-- Python `d or default` on an optional int (`0` and `None` are falsy). -/
def pyOrNat (d : Option Nat) (dflt : Nat) : Nat :=
  match d with
  | none => dflt
  | some n => if n = 0 then dflt else n

/-- Python truthiness of an optional list (`None` and `[]` are falsy). -/
def pyTruthyList (v : Option (List ℚ)) : Bool :=
  match v with
  | none => false
  | some l => !l.isEmpty

/-- Zero-padding to 6 digits for the fractional part of `"%.6f"`. -/
def pad6 (s : String) : String :=
  String.mk (List.replicate (6 - s.length) '0') ++ s

/-- Model of Python `f"\x7bv:.6f\x7d"`: fixed six-decimal rendering of a float (modelled on `ℚ`,
rounding to the nearest multiple of `10 ^ (-6)`). -/
def fmt6 (q : ℚ) : String :=
  let n : ℤ := round (q * 1000000)
  let sign := if n < 0 then "-" else ""
  let m := n.natAbs
  sign ++ toString (m / 1000000) ++ "." ++ pad6 (toString (m % 1000000))

/-- Model of `_vector_literal` (identical in `embedding_service.py` and `search.py`):
`"[" + ",".join(f"{v:.6f}" for v in values) + "]"`. -/
def vector_literal (values : List ℚ) : String :=
  "[" ++ String.intercalate "," (values.map fmt6) ++ "]"

section Hashing

variable (sha256 : List Nat → List Nat)

/-- Model of `_hash_content(content, model_name, source_part)`:
sha256 hexdigest of `f"{content}|{model_name}|{source_part}"`. -/
def hash_content (content model_name source_part : String) : String :=
  hexDigest (sha256 (strBytes (content ++ "|" ++ model_name ++ "|" ++ source_part)))

/-- Model of `_deterministic_embedding(content, dimension)` (identical definitions in
`embedding_service.py` and `search.py`): for each index `i < dimension`,
hash `sha256(content) || i` again, read the leading 4 bytes big-endian and
map into `[-1, 1]` via `(v % 2000) / 1000 - 1`. -/
def deterministic_embedding (content : String) (dimension : Nat) : List ℚ :=
  let base := sha256 (strBytes content)
  (List.range dimension).map (fun i =>
    let seed := sha256 (base ++ toBytesBE4 i)
    let int_val := fromBytesBE (seed.take 4)
    (((int_val % 2000 : ℕ) : ℚ) / 1000) - 1)

/-- The component formula as the spec words it: `u_i` is the leading 4 bytes
(big-endian) of `sha256(sha256(c) || i)`, the component `(u_i mod 2000)/1000 - 1`. -/
def specComponent (c : String) (i : Nat) : ℚ :=
  let u := fromBytesBE ((sha256 (sha256 (strBytes c) ++ toBytesBE4 i)).take 4)
  (((u % 2000 : ℕ) : ℚ) / 1000) - 1

end Hashing

/-- A row of the `embedding_models` table (the Model Registry). -/
structure ModelRow where
  model_name : String
  model_version : String
  modality : String
  dimension : Nat
  is_active : Bool
  is_default : Bool
  added_at : Nat
deriving DecidableEq, Repr

/-- A row returned by the SQL function `get_models_for_node(node_type)`.
Modelled from the spec: the function itself lives in the database schema,
outside `src/`; the spec describes it as the category → model priority
mapping, so it is carried as an abstract per-category row list. -/
structure GmRow where
  model_name : String
  source_part : String
  priority : Nat
deriving DecidableEq, Repr

/-- A selected (model, content-role) pair as produced by `_select_models`. -/
structure SelModel where
  model_name : String
  modality : String
  dimension : Nat
  source_part : String
  priority : Nat
deriving DecidableEq, Repr

/-- A row of the `nodes` table (only the columns `generate_for_node` reads). -/
structure NodeRow where
  id : String
  type : String
  title : Option String
  text_content : Option String
deriving DecidableEq, Repr

/-- The database state visible to the embedding service. -/
structure GenDb where
  embedding_models : List ModelRow
  get_models_for_node : String → List GmRow
  nodes : List NodeRow

/-- The `JOIN` inside `_select_models`: category mapping rows joined with
active `embedding_models`, then `ORDER BY gm.priority`. -/
def joinedModels (db : GenDb) (node_type : String) : List SelModel :=
  List.insertionSort (fun a b => a.priority ≤ b.priority)
    ((db.get_models_for_node node_type).flatMap (fun g =>
      (db.embedding_models.filter (fun m => m.model_name == g.model_name && m.is_active)).map
        (fun m =>
          { model_name := g.model_name, modality := m.modality, dimension := m.dimension,
            source_part := g.source_part, priority := g.priority })))

/-- The fallback query of `_select_models`: the default model, most recently
added first (`ORDER BY added_at DESC NULLS LAST LIMIT 1`), tagged with source part full. -/
def defaultFallback (db : GenDb) : List SelModel :=
  match (List.insertionSort (fun a b => b.added_at ≤ a.added_at)
      (db.embedding_models.filter (fun m => m.is_default))).head? with
  | none => []
  | some m =>
      [{ model_name := m.model_name, modality := m.modality, dimension := m.dimension,
         source_part := "full", priority := 1 }]

/-- The category-mapping path of `_select_models`: the joined mapping rows if
any, else the single default model.  Taken whenever the forced name is falsy. -/
def selectByMapping (db : GenDb) (node_type : String) : Except String (List SelModel) :=
  let rows := joinedModels db node_type
  if rows.isEmpty then .ok (defaultFallback db) else .ok rows

/-- Model of `EmbeddingService._select_models(node_type, model_name)`.  The
forced branch is guarded by Python `if model_name:`, so both `None` and the
empty string are falsy and fall through to the category-mapping path. -/
def select_models (db : GenDb) (node_type : String) (model_name : Option String) :
    Except String (List SelModel) :=
  match model_name with
  | some name =>
      if name == "" then selectByMapping db node_type
      else
        match (db.embedding_models.filter
            (fun m => m.model_name == name && m.is_active)).head? with
        | none => .error s!"Model {name} is not available"
        | some m =>
            .ok [{ model_name := m.model_name, modality := m.modality, dimension := m.dimension,
                   source_part := "full", priority := 1 }]
  | none => selectByMapping db node_type

/-- The conflict key of `node_embeddings`:
`(node_id, chunk_id, modality, model_name, source_part)`.  The unique index
behind `ON CONFLICT` is in the database schema, outside `src/`; modelled from
the uniqueness invariant of the spec ("at most one live record per tuple"), so two
`NULL` chunk ids count as the same key. -/
structure EmbKey where
  node_id : String
  chunk_id : Option String
  modality : String
  model_name : String
  source_part : String
deriving DecidableEq, Repr

/-- A live row of `node_embeddings` (the columns the service touches). -/
structure EmbRecord where
  id : Nat
  key : EmbKey
  dimension : Nat
  embedding : String
  content_hash : String
  generated_at : Nat
  last_accessed : Nat
  generation_time_ms : Option Int
  token_count : Option Int
deriving DecidableEq, Repr

/-- The `node_embeddings` table. -/
structure EmbTable where
  rows : List EmbRecord
  nextId : Nat
deriving DecidableEq, Repr

/-- The keyword arguments of `EmbeddingService.store_embedding`. -/
structure StoreArgs where
  node_id : String
  modality : String
  model_name : String
  source_part : String
  embedding : List ℚ
  content_hash : String
  dimension : Option Nat := none
  chunk_id : Option String := none
  generation_time_ms : Option Int := none
  token_count : Option Int := none
deriving DecidableEq, Repr

/-- The conflict key of one `store_embedding` call. -/
def StoreArgs.key (a : StoreArgs) : EmbKey :=
  { node_id := a.node_id, chunk_id := a.chunk_id, modality := a.modality,
    model_name := a.model_name, source_part := a.source_part }

/-- Look up the live row for a key. -/
def findRow (t : EmbTable) (k : EmbKey) : Option EmbRecord :=
  t.rows.find? (fun r => r.key == k)

/-- The `RETURNING` clause of the upsert:
`id, node_id, chunk_id, modality, model_name, source_part, dimension, generated_at`. -/
structure StoredRow where
  id : Nat
  key : EmbKey
  dimension : Nat
  generated_at : Nat
deriving DecidableEq, Repr

def EmbRecord.returning (r : EmbRecord) : StoredRow :=
  { id := r.id, key := r.key, dimension := r.dimension, generated_at := r.generated_at }

/-- Model of `INSERT ... ON CONFLICT (node_id, chunk_id, modality, model_name, source_part)
DO UPDATE SET ...` at time `now` (`NOW()`): replace `embedding`, `content_hash`,
refresh both timestamps, replace `dimension`, and `COALESCE` the new
`generation_time_ms` / `token_count` with the stored ones. -/
def upsertEmb (t : EmbTable) (now : Nat) (k : EmbKey) (dim : Nat)
    (vlit : String) (hash : String) (gtm tc : Option Int) : EmbTable × EmbRecord :=
  match findRow t k with
  | some old =>
      let updated : EmbRecord :=
        { old with
          embedding := vlit, content_hash := hash,
          generated_at := now, last_accessed := now, dimension := dim,
          generation_time_ms := gtm.or old.generation_time_ms,
          token_count := tc.or old.token_count }
      ({ t with rows := t.rows.map (fun r => if r.key == k then updated else r) }, updated)
  | none =>
      let fresh : EmbRecord :=
        { id := t.nextId, key := k, dimension := dim, embedding := vlit,
          content_hash := hash, generated_at := now, last_accessed := now,
          generation_time_ms := gtm, token_count := tc }
      ({ rows := t.rows ++ [fresh], nextId := t.nextId + 1 }, fresh)

/-- Model of `EmbeddingService.store_embedding`.  `wf` decides whether the database
raises on this insert (e.g. pgvector missing); the raised exception is
re-thrown as `ValueError("Failed to store embedding; ...")` and nothing is
written.  Dimension defaults per Python `dimension or len(embedding)`.
The trailing `_ensure_hnsw_indexes()` call swallows its own failures
(`except Exception: pass`) and never changes the returned value, so it has no
observable effect in this model. -/
def store_embedding (wf : StoreArgs → Bool) (t : EmbTable) (now : Nat) (a : StoreArgs) :
    EmbTable × Except String StoredRow :=
  let dim := pyOrNat a.dimension a.embedding.length
  let vlit := vector_literal a.embedding
  if wf a then
    (t, .error "Failed to store embedding; ensure pgvector is installed")
  else
    let (t', r) := upsertEmb t now a.key dim vlit a.content_hash
      a.generation_time_ms a.token_count
    (t', .ok r.returning)

/-- Python `str.strip()`: drop leading and trailing whitespace. -/
def pyStrip (s : String) : String :=
  String.mk
    (((s.data.dropWhile Char.isWhitespace).reverse.dropWhile Char.isWhitespace).reverse)

/-- Model of `text_full = " ".join(part for part in [title, text_content] if part).strip()`
(Python drops `None` and `""` parts). -/
def text_full (n : NodeRow) : String :=
  pyStrip (String.intercalate " "
    (([n.title, n.text_content].filterMap id).filter (fun s => s ≠ "")))

/-- Model of `content = node["title"] if model["source_part"] == "title" else text_full`;
a `None` title with a `"title"` role crashes in `content.encode` downstream
(`AttributeError`), modelled as an error. -/
def contentFor (n : NodeRow) (m : SelModel) : Except String String :=
  if m.source_part == "title" then
    match n.title with
    | some ti => .ok ti
    | none => .error "AttributeError: NoneType object has no attribute encode"
  else .ok (text_full n)

/-- The `store_embedding` keyword arguments one iteration of the
`generate_for_node` loop passes: the deterministically embedded content, its
hash, and the declared dimension of the model. -/
def storeArgsFor (sha256 : List Nat → List Nat) (n : NodeRow) (content : String)
    (m : SelModel) : StoreArgs :=
  { node_id := n.id, modality := m.modality, model_name := m.model_name,
    source_part := m.source_part,
    embedding := deterministic_embedding sha256 content m.dimension,
    content_hash := hash_content sha256 content m.model_name m.source_part,
    dimension := some m.dimension }

/-- The per-model loop of `generate_for_node`: embed, hash and store each
selected model in order.  There is no exception handling around
`store_embedding`, so the first failure aborts the loop, discards the
summaries collected so far and propagates the exception (earlier table
writes stay, as the database already committed them). -/
def generateLoop (sha256 : List Nat → List Nat) (wf : StoreArgs → Bool) (n : NodeRow)
    (now : Nat) : List SelModel → EmbTable → List StoredRow →
    EmbTable × Except String (List StoredRow)
  | [], t, acc => (t, .ok acc)
  | m :: rest, t, acc =>
      match contentFor n m with
      | .error e => (t, .error e)
      | .ok content =>
          match store_embedding wf t now (storeArgsFor sha256 n content m) with
          | (t', .ok row) => generateLoop sha256 wf n now rest t' (acc ++ [row])
          | (t', .error e) => (t', .error e)

/-- Model of `EmbeddingService.generate_for_node(node_id, model_name)`. -/
def generate_for_node (sha256 : List Nat → List Nat) (db : GenDb) (wf : StoreArgs → Bool)
    (t : EmbTable) (now : Nat) (node_id : String) (model_name : Option String) :
    EmbTable × Except String (List StoredRow) :=
  match (db.nodes.filter (fun n => n.id == node_id)).head? with
  | none => (t, .error "Node not found")
  | some node =>
      if text_full node == "" then
        (t, .error "Node has no textual content to embed")
      else
        match select_models db node.type model_name with
        | .error e => (t, .error e)
        | .ok [] => (t, .error "No embedding models available")
        | .ok models => generateLoop sha256 wf node now models t []

/-- Exceptions crossing the API layer: `HTTPException(status, detail)` or a
generic database/driver exception. -/
inductive PyErr where
  | http (status : Nat) (detail : String)
  | db
deriving DecidableEq, Repr

/-- Request body of `POST /embeddings` (`EmbeddingCreate`). -/
structure EmbeddingCreate where
  node_id : String
  modality : String
  model_name : String
  source_part : String
  embedding : List ℚ
  content_hash : Option String := none
  chunk_id : Option String := none
  generation_time_ms : Option Int := none
  token_count : Option Int := none
deriving DecidableEq, Repr

/-- The default content hash of `create_embedding`: sha256 hexdigest of the
components of the vector stringified (`pyStr` models Python str on floats) and
joined with `"|"`. -/
def vectorHash (sha256 : List Nat → List Nat) (pyStr : ℚ → String)
    (embedding : List ℚ) : String :=
  hexDigest (sha256 (strBytes (String.intercalate "|" (embedding.map pyStr))))

/-- Python `payload.content_hash or computed` (`None` and `""` are falsy). -/
def pyOrStr (s : Option String) (dflt : String) : String :=
  match s with
  | none => dflt
  | some v => if v == "" then dflt else v

/-- The `store_embedding` keyword arguments `create_embedding` passes: the
payload fields with the content hash defaulted per Python
`payload.content_hash or sha256("|".join(str(v) ...)).hexdigest()`. -/
def argsOfCreate (sha256 : List Nat → List Nat) (pyStr : ℚ → String)
    (p : EmbeddingCreate) : StoreArgs :=
  { node_id := p.node_id, modality := p.modality, model_name := p.model_name,
    source_part := p.source_part, embedding := p.embedding,
    content_hash := pyOrStr p.content_hash (vectorHash sha256 pyStr p.embedding),
    chunk_id := p.chunk_id,
    generation_time_ms := p.generation_time_ms, token_count := p.token_count }

/-- Model of the `POST /embeddings` handler `create_embedding`: default the content hash,
delegate to `store_embedding`, and re-raise its `ValueError` as
`HTTPException(400)`. -/
def create_embedding (sha256 : List Nat → List Nat) (pyStr : ℚ → String)
    (wf : StoreArgs → Bool) (t : EmbTable) (now : Nat) (p : EmbeddingCreate) :
    EmbTable × Except PyErr StoredRow :=
  match store_embedding wf t now (argsOfCreate sha256 pyStr p) with
  | (t', .ok row) => (t', .ok row)
  | (t', .error e) => (t', .error (.http 400 e))

/-- Model of `mode: Literal["node", "chunk"]`. -/
inductive SearchMode where
  | node
  | chunk
deriving DecidableEq, Repr

/-- Model of `SearchRequest` with its pydantic defaults. -/
structure SearchRequest where
  query : String
  limit : Nat := 20
  mode : SearchMode := .node
  use_vector : Bool := false
  query_embedding : Option (List ℚ) := none
  alpha : ℚ := 1 / 2
  model_name : String := "jina-embeddings-v2"
  node_types : Option (List String) := none
  language : String := "en"
  include_context : Bool := true
  context_size : Nat := 1
deriving DecidableEq, Repr

/-- Model of `SearchResult` (all score/context fields optional). -/
structure SearchResult where
  node_id : String
  title : Option String := none
  node_type : Option String := none
  chunk_id : Option String := none
  content : Option String := none
  summary : Option String := none
  bm25_score : Option ℚ := none
  vector_score : Option ℚ := none
  hybrid_score : Option ℚ := none
  context_before : Option String := none
  context_after : Option String := none
deriving DecidableEq, Repr

/-- A row of the BM25 node queries (ParadeDB or tsvector shape). -/
structure BmNodeRow where
  node_id : String
  node_type : Option String
  title : Option String
  bm25_score : Option ℚ
deriving DecidableEq, Repr

/-- A row of `hybrid_search(...)`. -/
structure HybridNodeRow where
  node_id : String
  node_type : Option String
  title : Option String
  bm25_score : Option ℚ
  vector_score : Option ℚ
  hybrid_score : Option ℚ
deriving DecidableEq, Repr

/-- A row of `search_chunks(...)`. -/
structure LexChunkRow where
  node_id : String
  node_title : Option String
  chunk_id : Option String
  content : Option String
  summary : Option String
  bm25_score : Option ℚ
  context_before : Option String
  context_after : Option String
deriving DecidableEq, Repr

/-- A row of `hybrid_search_chunks(...)`. -/
structure HybridChunkRow where
  node_id : String
  node_title : Option String
  chunk_id : Option String
  content : Option String
  summary : Option String
  bm25_score : Option ℚ
  vector_score : Option ℚ
  hybrid_score : Option ℚ
deriving DecidableEq, Repr

/-- The database as the search API sees it: the model registry table plus the
outcome of each SQL call (`Except Unit` models a raised driver exception). -/
structure SearchDb where
  embedding_models : List ModelRow
  paradeNode : String → Option (List String) → Nat → Except Unit (List BmNodeRow)
  tsNode : String → Option (List String) → Nat → Except Unit (List BmNodeRow)
  hybridNode : String → String → String → ℚ → Nat → Option (List String) →
    Except Unit (List HybridNodeRow)
  chunksLex : String → Option (List String) → String → Nat → Bool → Nat →
    Except Unit (List LexChunkRow)
  hybridChunks : String → String → String → ℚ → Nat → String →
    Except Unit (List HybridChunkRow)
  track : String → Except Unit Unit

/-- The model descriptor columns `_get_model_info` selects. -/
structure ModelInfo where
  model_name : String
  modality : String
  dimension : Nat
deriving DecidableEq, Repr

/-- Model of `_get_model_info`: resolve an active model or raise `HTTPException(400)`. -/
def get_model_info (db : SearchDb) (model_name : String) : Except PyErr ModelInfo :=
  match (db.embedding_models.filter
      (fun m => m.model_name == model_name && m.is_active)).head? with
  | none => .error (.http 400 s!"Unknown embedding model {model_name}")
  | some m => .ok { model_name := m.model_name, modality := m.modality, dimension := m.dimension }

/-- Model of `_hybrid_node_search`: resolve the model, take the vector of the caller if
truthy (Python `or`), else synthesize one deterministically, then call
`hybrid_search`. -/
def hybrid_node_search (sha256 : List Nat → List Nat) (req : SearchRequest)
    (db : SearchDb) : Except PyErr (List SearchResult) :=
  match get_model_info db req.model_name with
  | .error e => .error e
  | .ok model =>
      let query_embedding :=
        match req.query_embedding with
        | some v =>
            if v.isEmpty then deterministic_embedding sha256 req.query model.dimension else v
        | none => deterministic_embedding sha256 req.query model.dimension
      match db.hybridNode req.query (vector_literal query_embedding) req.model_name
          req.alpha req.limit req.node_types with
      | .error _ => .error .db
      | .ok rows =>
          .ok (rows.map (fun r =>
            { node_id := r.node_id, node_type := r.node_type, title := r.title,
              bm25_score := r.bm25_score, vector_score := r.vector_score,
              hybrid_score := r.hybrid_score }))

/-- Model of `_bm25_node_search`: try the ParadeDB index, fall back to the tsvector
query on any failure; a failure of the fallback itself propagates. -/
def bm25_node_search (req : SearchRequest) (db : SearchDb) :
    Except PyErr (List SearchResult) :=
  let fetched :=
    match db.paradeNode req.query req.node_types req.limit with
    | .ok rows => Except.ok rows
    | .error _ => db.tsNode req.query req.node_types req.limit
  match fetched with
  | .error _ => .error .db
  | .ok rows =>
      .ok (rows.map (fun r =>
        { node_id := r.node_id, node_type := r.node_type, title := r.title,
          bm25_score := r.bm25_score }))

/-- Model of `_search_nodes`: attempt the hybrid path when vector search is requested
(`use_vector or query_embedding`, Python truthiness) and absorb any of its
exceptions into the BM25 path. -/
def search_nodes (sha256 : List Nat → List Nat) (req : SearchRequest) (db : SearchDb) :
    Except PyErr (List SearchResult) :=
  if req.use_vector || pyTruthyList req.query_embedding then
    match hybrid_node_search sha256 req db with
    | .ok r => .ok r
    | .error _ => bm25_node_search req db
  else
    bm25_node_search req db

/-- Model of `_hybrid_chunk_search`. -/
def hybrid_chunk_search (sha256 : List Nat → List Nat) (req : SearchRequest)
    (db : SearchDb) : Except PyErr (List SearchResult) :=
  match get_model_info db req.model_name with
  | .error e => .error e
  | .ok model =>
      let query_embedding :=
        match req.query_embedding with
        | some v =>
            if v.isEmpty then deterministic_embedding sha256 req.query model.dimension else v
        | none => deterministic_embedding sha256 req.query model.dimension
      match db.hybridChunks req.query (vector_literal query_embedding) req.model_name
          req.alpha req.limit req.language with
      | .error _ => .error .db
      | .ok rows =>
          .ok (rows.map (fun r =>
            { node_id := r.node_id, title := r.node_title, chunk_id := r.chunk_id,
              content := r.content, summary := r.summary, bm25_score := r.bm25_score,
              vector_score := r.vector_score, hybrid_score := r.hybrid_score }))

/-- The lexical chunk query of `_search_chunks` (`search_chunks(...)`); its
failure propagates (it is not inside the `try`). -/
def lex_chunk_search (req : SearchRequest) (db : SearchDb) :
    Except PyErr (List SearchResult) :=
  match db.chunksLex req.query req.node_types req.language req.limit
      req.include_context req.context_size with
  | .error _ => .error .db
  | .ok rows =>
      .ok (rows.map (fun r =>
        { node_id := r.node_id, title := r.node_title, chunk_id := r.chunk_id,
          content := r.content, summary := r.summary, bm25_score := r.bm25_score,
          context_before := r.context_before, context_after := r.context_after }))

/-- Model of `_search_chunks`: same two-path fallback shape as `_search_nodes`. -/
def search_chunks (sha256 : List Nat → List Nat) (req : SearchRequest) (db : SearchDb) :
    Except PyErr (List SearchResult) :=
  if req.use_vector || pyTruthyList req.query_embedding then
    match hybrid_chunk_search sha256 req db with
    | .ok r => .ok r
    | .error _ => lex_chunk_search req db
  else
    lex_chunk_search req db

/-- The mode dispatch at the top of the `POST /search` handler. -/
def searchInner (sha256 : List Nat → List Nat) (req : SearchRequest) (db : SearchDb) :
    Except PyErr (List SearchResult) :=
  if req.mode == SearchMode.chunk then search_chunks sha256 req db
  else search_nodes sha256 req db

/-- The `POST /search` handler: dispatch on mode, then loop over the results
calling `track_node_access` per item, each call wrapped in
`try/except: pass`, so the loop contributes nothing to the response. -/
def search (sha256 : List Nat → List Nat) (req : SearchRequest) (db : SearchDb) :
    Except PyErr (List SearchResult) :=
  match searchInner sha256 req db with
  | .error e => .error e
  | .ok results =>
      let _tracked := results.map (fun r => (db.track r.node_id).toOption)
      .ok results

/-- A concrete 32-byte digest function standing in for SHA-256 in witnesses
(every theorem below is proved for an arbitrary digest function). -/
def sha256Stub : List Nat → List Nat :=
  fun bs => (List.range 32).map (fun i => (i + bs.foldl (fun a b => a + b) 0) % 256)

/-- C4: for every content string `c` and dimension `d`, the Deterministic
Fallback Embedder returns a vector of length exactly `d` whose `i`-th
component equals `(u_i mod 2000)/1000 - 1`, where `u_i` is the leading 4
bytes (big-endian unsigned) of `sha256(sha256(c) || i)` with `i` encoded as
4 big-endian bytes; every component lies in `[-1, 1]`, and two calls with the
same `c` and `d` return identical vectors. -/
theorem C4_deterministic_fallback_embedder (sha256 : List Nat → List Nat)
    (c : String) (d : Nat) :
    (deterministic_embedding sha256 c d).length = d ∧
    (∀ i, i < d →
      (deterministic_embedding sha256 c d)[i]? = some (specComponent sha256 c i)) ∧
    (∀ x ∈ deterministic_embedding sha256 c d, -1 ≤ x ∧ x ≤ 1) ∧
    deterministic_embedding sha256 c d = deterministic_embedding sha256 c d := by
  refine ⟨by simp [deterministic_embedding], ?_, ?_, rfl⟩
  · intro i hi
    simp [deterministic_embedding, specComponent, List.getElem?_range hi]
  · intro x hx
    simp only [deterministic_embedding, List.mem_map, List.mem_range] at hx
    obtain ⟨i, hi, rfl⟩ := hx
    have hm : fromBytesBE ((sha256 (sha256 (strBytes c) ++ toBytesBE4 i)).take 4) % 2000
        < 2000 := Nat.mod_lt _ (by norm_num)
    have h1 : ((fromBytesBE ((sha256 (sha256 (strBytes c) ++ toBytesBE4 i)).take 4) % 2000
        : ℕ) : ℚ) ≤ 1999 := by exact_mod_cast Nat.lt_succ_iff.mp hm
    have h0 : (0 : ℚ) ≤ ((fromBytesBE ((sha256 (sha256 (strBytes c) ++ toBytesBE4 i)).take 4)
        % 2000 : ℕ) : ℚ) := Nat.cast_nonneg _
    constructor <;> [linarith ; linarith]

/-- Witness for C4 at `c = "a"`, `d = 2`, `i = 1`. -/
theorem C4_deterministic_fallback_embedder_witness :
    (1 < 2 ∧
      (deterministic_embedding sha256Stub "a" 2)[1]? = some (specComponent sha256Stub "a" 1)) ∧
    ∀ x ∈ deterministic_embedding sha256Stub "a" 2, -1 ≤ x ∧ x ≤ 1 :=
  ⟨⟨by decide, (C4_deterministic_fallback_embedder sha256Stub "a" 2).2.1 1 (by decide)⟩,
    (C4_deterministic_fallback_embedder sha256Stub "a" 2).2.2.1⟩

instance : IsTotal SelModel (fun a b => a.priority ≤ b.priority) :=
  ⟨fun a b => Nat.le_total a.priority b.priority⟩

instance : IsTrans SelModel (fun a b => a.priority ≤ b.priority) :=
  ⟨fun _ _ _ h h' => Nat.le_trans h h'⟩

/-- C7: the `_select_models` cases — (a) with no forced model, no category-mapping
rows and exactly one default model, the selector returns exactly that default
model tagged `"full"`; (b) with a (truthy, i.e. non-empty) forced name
matching a single active descriptor, the mapping is bypassed and that
descriptor is returned tagged `"full"`; (c) a truthy forced name matching no
active model fails; (d) when the category mapping yields rows they are
returned ordered by ascending priority. -/
theorem C7_select_models_cases (db : GenDb) (cat name : String) (m : ModelRow)
    (ms : List SelModel) :
    (joinedModels db cat = [] →
      db.embedding_models.filter (fun r => r.is_default) = [m] →
      select_models db cat none =
        .ok [{ model_name := m.model_name, modality := m.modality,
               dimension := m.dimension, source_part := "full", priority := 1 }]) ∧
    (name ≠ "" →
      db.embedding_models.filter (fun r => r.model_name == name && r.is_active) = [m] →
      select_models db cat (some name) =
        .ok [{ model_name := m.model_name, modality := m.modality,
               dimension := m.dimension, source_part := "full", priority := 1 }]) ∧
    (name ≠ "" →
      db.embedding_models.filter (fun r => r.model_name == name && r.is_active) = [] →
      select_models db cat (some name) = .error s!"Model {name} is not available") ∧
    (joinedModels db cat = ms → ms ≠ [] →
      select_models db cat none = .ok ms ∧
      ms.Pairwise (fun a b => a.priority ≤ b.priority)) := by
  refine ⟨?_, ?_, ?_, ?_⟩
  · intro hrows hdef
    simp [select_models, selectByMapping, hrows, defaultFallback, hdef]
  · intro hname hfind
    have hb : (name == "") = false := beq_eq_false_iff_ne.mpr hname
    simp [select_models, hb, hfind]
  · intro hname hfind
    have hb : (name == "") = false := beq_eq_false_iff_ne.mpr hname
    simp [select_models, hb, hfind]
  · intro hrows hne
    have hempty : ms.isEmpty = false := by
      cases ms with
      | nil => exact absurd rfl hne
      | cons a l => rfl
    have hsorted : (joinedModels db cat).Pairwise (fun a b => a.priority ≤ b.priority) :=
      List.sorted_insertionSort (fun (a b : SelModel) => a.priority ≤ b.priority) _
    rw [hrows] at hsorted
    exact ⟨by simp [select_models, selectByMapping, hrows, hempty], hsorted⟩

/-- A concrete registry for the C7 witness: one default text model and one
non-default model, plus a category mapping for `"note"`. -/
def dbSel : GenDb :=
  { embedding_models :=
      [{ model_name := "jina-embeddings-v2", model_version := "2", modality := "text",
         dimension := 8, is_active := true, is_default := true, added_at := 5 },
       { model_name := "siglip", model_version := "1", modality := "image",
         dimension := 4, is_active := true, is_default := false, added_at := 3 }],
    get_models_for_node := fun ty =>
      if ty == "note" then
        [{ model_name := "siglip", source_part := "full", priority := 2 },
         { model_name := "jina-embeddings-v2", source_part := "title", priority := 1 }]
      else [],
    nodes := [] }

/-- Witness for C7: all four branches at concrete inputs over `dbSel`. -/
theorem C7_select_models_cases_witness :
    (select_models dbSel "other" none =
      .ok [{ model_name := "jina-embeddings-v2", modality := "text", dimension := 8,
             source_part := "full", priority := 1 }]) ∧
    (select_models dbSel "note" (some "siglip") =
      .ok [{ model_name := "siglip", modality := "image", dimension := 4,
             source_part := "full", priority := 1 }]) ∧
    (select_models dbSel "note" (some "nope") = .error "Model nope is not available") ∧
    (select_models dbSel "note" none =
      .ok [{ model_name := "jina-embeddings-v2", modality := "text", dimension := 8,
             source_part := "title", priority := 1 },
           { model_name := "siglip", modality := "image", dimension := 4,
             source_part := "full", priority := 2 }] ∧
      List.Pairwise (fun
          (a b : SelModel) => a.priority ≤ b.priority)
        [{ model_name := "jina-embeddings-v2", modality := "text", dimension := 8,
           source_part := "title", priority := 1 },
         { model_name := "siglip", modality := "image", dimension := 4,
           source_part := "full", priority := 2 }]) :=
  ⟨(C7_select_models_cases dbSel "other" "x"
      { model_name := "jina-embeddings-v2", model_version := "2", modality := "text",
        dimension := 8, is_active := true, is_default := true, added_at := 5 } []).1
      (by decide) (by decide),
   (C7_select_models_cases dbSel "note" "siglip"
      { model_name := "siglip", model_version := "1", modality := "image",
        dimension := 4, is_active := true, is_default := false, added_at := 3 } []).2.1
      (by decide) (by decide),
   (C7_select_models_cases dbSel "note" "nope"
      { model_name := "nope", model_version := "", modality := "", dimension := 0,
        is_active := false, is_default := false, added_at := 0 } []).2.2.1
      (by decide) (by decide),
   (C7_select_models_cases dbSel "note" "x"
      { model_name := "", model_version := "", modality := "", dimension := 0,
        is_active := false, is_default := false, added_at := 0 }
      [{ model_name := "jina-embeddings-v2", modality := "text", dimension := 8,
         source_part := "title", priority := 1 },
       { model_name := "siglip", modality := "image", dimension := 4,
         source_part := "full", priority := 2 }]).2.2.2
      (by decide) (by decide)⟩

/-- The table holds at most one live record per conflict key. -/
def KeyUnique (t : EmbTable) : Prop :=
  t.rows.Pairwise (fun a b => a.key ≠ b.key)

theorem pairwise_keys_map (f : EmbRecord → EmbRecord) (hf : ∀ r, (f r).key = r.key)
    (l : List EmbRecord) (h : l.Pairwise (fun a b => a.key ≠ b.key)) :
    (l.map f).Pairwise (fun a b => a.key ≠ b.key) := by
  refine List.Pairwise.map f (fun a b hab => ?_) h
  simpa [hf] using hab

theorem find?_map_keyfix (f : EmbRecord → EmbRecord) (hf : ∀ r, (f r).key = r.key)
    (k : EmbKey) (l : List EmbRecord) :
    (l.map f).find? (fun r => r.key == k) =
      (l.find? (fun r => r.key == k)).map f := by
  induction l with
  | nil => rfl
  | cons a l ih =>
      simp only [List.map_cons, List.find?_cons, hf]
      by_cases hk : a.key = k
      · simp [hk]
      · rw [beq_eq_false_iff_ne.mpr hk]
        exact ih

/-- C5: an Embedding Store upsert whose key matches an existing record
leaves at most one live record for that key (never a duplicate); the new
vector literal, content hash and dimension replace the old ones; both
`generated_at` and `last_accessed` are refreshed to the write time; and
`generation_time_ms` / `token_count` take the newly supplied value exactly
when it is non-null, keeping the stored value otherwise (`Option.or`). -/
theorem C5_upsert_replaces_existing (wf : StoreArgs → Bool) (t : EmbTable) (now : Nat)
    (a : StoreArgs) (old : EmbRecord) (hwf : wf a = false) (hu : KeyUnique t)
    (hold : findRow t a.key = some old) :
    KeyUnique (store_embedding wf t now a).1 ∧
    findRow (store_embedding wf t now a).1 a.key = some
      { id := old.id, key := a.key,
        dimension := pyOrNat a.dimension a.embedding.length,
        embedding := vector_literal a.embedding,
        content_hash := a.content_hash,
        generated_at := now, last_accessed := now,
        generation_time_ms := a.generation_time_ms.or old.generation_time_ms,
        token_count := a.token_count.or old.token_count } ∧
    (store_embedding wf t now a).2 = .ok
      { id := old.id, key := a.key,
        dimension := pyOrNat a.dimension a.embedding.length,
        generated_at := now } := by
  have hkey : old.key = a.key := by
    have := List.find?_some hold
    simpa using this
  have hst : store_embedding wf t now a =
      (({ t with rows := t.rows.map (fun r =>
            if r.key == a.key then
              { old with
                embedding := vector_literal a.embedding,
                content_hash := a.content_hash,
                generated_at := now, last_accessed := now,
                dimension := pyOrNat a.dimension a.embedding.length,
                generation_time_ms := a.generation_time_ms.or old.generation_time_ms,
                token_count := a.token_count.or old.token_count }
            else r) } : EmbTable),
        .ok { id := old.id, key := old.key,
              dimension := pyOrNat a.dimension a.embedding.length,
              generated_at := now }) := by
    simp only [store_embedding, hwf, Bool.false_eq_true, if_false, upsertEmb]
    rw [hold]
    rfl
  rw [hst]
  have hold' : List.find? (fun r => r.key == a.key) t.rows = some old := hold
  refine ⟨?_, ?_, by rw [hkey]⟩
  · exact pairwise_keys_map _
      (fun r => by by_cases h : r.key = a.key <;> simp [h, hkey]) _ hu
  · show List.find? _ _ = _
    rw [find?_map_keyfix _ (fun r => by by_cases h : r.key = a.key <;> simp [h, hkey]) a.key,
      hold']
    simp [hkey]

/-- A write oracle that never fails. -/
def wfNever : StoreArgs → Bool := fun _ => false

/-- The empty `node_embeddings` table. -/
def tEmpty : EmbTable := { rows := [], nextId := 0 }

/-- Concrete pre-state for the C5 witness: one stored record. -/
def oldW : EmbRecord :=
  { id := 7,
    key := { node_id := "n1", chunk_id := none, modality := "text",
             model_name := "jina-embeddings-v2", source_part := "full" },
    dimension := 2, embedding := "[0.000000,0.000000]", content_hash := "h0",
    generated_at := 10, last_accessed := 11,
    generation_time_ms := some 42, token_count := none }

def tW : EmbTable := { rows := [oldW], nextId := 8 }

/-- Concrete upsert call hitting the key of `oldW` with new values. -/
def argsW : StoreArgs :=
  { node_id := "n1", modality := "text", model_name := "jina-embeddings-v2",
    source_part := "full", embedding := [1 / 2, -1 / 2], content_hash := "h1",
    dimension := none, chunk_id := none, generation_time_ms := none,
    token_count := some 9 }

/-- Witness for C5 at the concrete table `tW`. -/
theorem C5_upsert_replaces_existing_witness :
    (wfNever argsW = false ∧ KeyUnique tW ∧ findRow tW argsW.key = some oldW) ∧
    (KeyUnique (store_embedding wfNever tW 99 argsW).1 ∧
     findRow (store_embedding wfNever tW 99 argsW).1 argsW.key = some
       { id := oldW.id, key := argsW.key,
         dimension := pyOrNat argsW.dimension argsW.embedding.length,
         embedding := vector_literal argsW.embedding,
         content_hash := argsW.content_hash,
         generated_at := 99, last_accessed := 99,
         generation_time_ms := argsW.generation_time_ms.or oldW.generation_time_ms,
         token_count := argsW.token_count.or oldW.token_count } ∧
     (store_embedding wfNever tW 99 argsW).2 = .ok
       { id := oldW.id, key := argsW.key,
         dimension := pyOrNat argsW.dimension argsW.embedding.length,
         generated_at := 99 }) :=
  ⟨⟨rfl, by constructor <;> simp, rfl⟩,
    C5_upsert_replaces_existing wfNever tW 99 argsW oldW rfl
      (by constructor <;> simp) rfl⟩

/-- A successful `store_embedding` (no database failure) written as an
explicit pair, for reduction in later proofs. -/
theorem store_embedding_eq_ok (wf : StoreArgs → Bool) (t : EmbTable) (now : Nat)
    (a : StoreArgs) (hwf : wf a = false) :
    store_embedding wf t now a =
      ((upsertEmb t now a.key (pyOrNat a.dimension a.embedding.length)
          (vector_literal a.embedding) a.content_hash a.generation_time_ms a.token_count).1,
       .ok (upsertEmb t now a.key (pyOrNat a.dimension a.embedding.length)
          (vector_literal a.embedding) a.content_hash a.generation_time_ms
          a.token_count).2.returning) := by
  simp only [store_embedding, hwf, Bool.false_eq_true, if_false]

/-- A failing `store_embedding` raises the wrapped `ValueError` and leaves
the table untouched. -/
theorem store_embedding_eq_err (wf : StoreArgs → Bool) (t : EmbTable) (now : Nat)
    (a : StoreArgs) (hwf : wf a = true) :
    store_embedding wf t now a =
      (t, .error "Failed to store embedding; ensure pgvector is installed") := by
  simp only [store_embedding, hwf, if_true]

/-- After a successful store, the live row at the key of the call carries exactly
the supplied vector literal, hash, (defaulted) dimension and timestamps. -/
theorem findRow_after_store (wf : StoreArgs → Bool) (t : EmbTable) (now : Nat)
    (a : StoreArgs) (hwf : wf a = false) :
    ∃ r, findRow (store_embedding wf t now a).1 a.key = some r ∧
      r.content_hash = a.content_hash ∧
      r.embedding = vector_literal a.embedding ∧
      r.dimension = pyOrNat a.dimension a.embedding.length ∧
      r.generated_at = now ∧ r.last_accessed = now := by
  rw [store_embedding_eq_ok wf t now a hwf]
  cases hold : findRow t a.key with
  | some old =>
      have hkey : old.key = a.key := by simpa using List.find?_some hold
      have hold' : List.find? (fun r => r.key == a.key) t.rows = some old := hold
      refine ⟨{ old with
                embedding := vector_literal a.embedding, content_hash := a.content_hash,
                generated_at := now, last_accessed := now,
                dimension := pyOrNat a.dimension a.embedding.length,
                generation_time_ms := a.generation_time_ms.or old.generation_time_ms,
                token_count := a.token_count.or old.token_count },
        ?_, rfl, rfl, rfl, rfl, rfl⟩
      show List.find? _ _ = _
      simp only [upsertEmb, hold]
      rw [find?_map_keyfix _ (fun r => by by_cases h : r.key = a.key <;> simp [h, hkey]) a.key,
        hold']
      simp [hkey]
  | none =>
      have hnone : List.find? (fun r => r.key == a.key) t.rows = none := hold
      refine ⟨({ id := t.nextId, key := a.key,
                 dimension := pyOrNat a.dimension a.embedding.length,
                 embedding := vector_literal a.embedding, content_hash := a.content_hash,
                 generated_at := now, last_accessed := now,
                 generation_time_ms := a.generation_time_ms,
                 token_count := a.token_count } : EmbRecord),
        ?_, rfl, rfl, rfl, rfl, rfl⟩
      show List.find? _ _ = _
      simp only [upsertEmb, hold]
      rw [List.find?_append, hnone]
      simp

/-- Registry for the C6 counterexample: the model of the call is registered with
dimension 8, conflicting with the 3-component vector being stored. -/
def regC6 : List ModelRow :=
  [{ model_name := "jina-embeddings-v2", model_version := "2", modality := "text",
     dimension := 8, is_active := true, is_default := true, added_at := 0 }]

def argsC6 : StoreArgs :=
  { node_id := "n1", modality := "text", model_name := "jina-embeddings-v2",
    source_part := "full", embedding := [1, 0, 1], content_hash := "h" }

/-- C6 counterexample: the model registry (`regC6`) registers dimension 8
for the model of the call, the defaulted dimension of the call is 3 — a conflict — yet
`store_embedding` succeeds (storing dimension 3) instead of failing with a
`DimensionMismatch`: the code never consults the registry. -/
theorem C6_counterexample_no_dimension_check :
    ((regC6.filter (fun m => m.model_name == argsC6.model_name)).map
        (fun m => m.dimension) = [8]) ∧
    pyOrNat argsC6.dimension argsC6.embedding.length = 3 ∧
    (store_embedding wfNever tEmpty 5 argsC6).2 =
      .ok { id := 0, key := argsC6.key, dimension := 3, generated_at := 5 } := by
  refine ⟨rfl, rfl, rfl⟩

/-- C6 amended: the dimension defaults to `len(vector)` when not supplied; no
check against the model registry is performed and the call never fails with a
`DimensionMismatch` — when the database write itself does not fail, the call
succeeds whatever the registered dimension (a supplied nonzero dimension is
stored as-is; a supplied `0` also defaults to the vector length, per Python
`or`-falsiness). -/
theorem C6_amended_dimension_defaults (wf : StoreArgs → Bool) (t : EmbTable)
    (now : Nat) (a : StoreArgs) (hwf : wf a = false) :
    (a.dimension = none →
      ∃ r, (store_embedding wf t now a).2 = .ok r ∧ r.dimension = a.embedding.length) ∧
    (∀ d, a.dimension = some d → d ≠ 0 →
      ∃ r, (store_embedding wf t now a).2 = .ok r ∧ r.dimension = d) ∧
    (a.dimension = some 0 →
      ∃ r, (store_embedding wf t now a).2 = .ok r ∧ r.dimension = a.embedding.length) := by
  have key : ∃ r, (store_embedding wf t now a).2 = .ok r ∧
      r.dimension = pyOrNat a.dimension a.embedding.length := by
    rw [store_embedding_eq_ok wf t now a hwf]
    cases hold : findRow t a.key with
    | some old => exact ⟨_, rfl, by simp [upsertEmb, hold, EmbRecord.returning]⟩
    | none => exact ⟨_, rfl, by simp [upsertEmb, hold, EmbRecord.returning]⟩
  obtain ⟨r, hr, hd⟩ := key
  refine ⟨?_, ?_, ?_⟩
  · intro hnone
    exact ⟨r, hr, by rw [hd, hnone]; rfl⟩
  · intro d hsome hd0
    refine ⟨r, hr, ?_⟩
    rw [hd, hsome]
    simp [pyOrNat, hd0]
  · intro hzero
    exact ⟨r, hr, by rw [hd, hzero]; rfl⟩

/-- Witness for C6 amended at the concrete inputs of the counterexample
registry scenario. -/
theorem C6_amended_dimension_defaults_witness :
    argsC6.dimension = none ∧
    ∃ r, (store_embedding wfNever tEmpty 5 argsC6).2 = .ok r ∧
      r.dimension = argsC6.embedding.length :=
  ⟨rfl, (C6_amended_dimension_defaults wfNever tEmpty 5 argsC6 rfl).1 rfl⟩

/-- A node with both a title and body text, typed `"note"`. -/
def nodeC1 : NodeRow :=
  { id := "n1", type := "note", title := some "T", text_content := some "hello" }

/-- The registry and category mapping of `dbSel`, with `nodeC1` stored. -/
def dbC1 : GenDb := { dbSel with nodes := [nodeC1] }

/-- Write oracle failing exactly on the first selected model (jina). -/
def wfC1 : StoreArgs → Bool := fun a => a.model_name == "jina-embeddings-v2"

/-- Write oracle failing exactly on the second selected model (siglip). -/
def wfC1b : StoreArgs → Bool := fun a => a.model_name == "siglip"

/-- C1 counterexample: two (model, role) pairs are selected for `"n1"`
(jina/title first, siglip/full second); the store write for jina is made to
fail while the siglip write succeeds on its own — yet `generate_for_node`
returns the store error with no stored-record summaries at all, instead of
reporting the siglip success alongside the per-model failure. -/
theorem C1_counterexample_store_failure_aborts :
    select_models dbC1 "note" none = .ok
      [{ model_name := "jina-embeddings-v2", modality := "text", dimension := 8,
         source_part := "title", priority := 1 },
       { model_name := "siglip", modality := "image", dimension := 4,
         source_part := "full", priority := 2 }] ∧
    generate_for_node sha256Stub dbC1 wfC1 tEmpty 3 "n1" none =
      (tEmpty, .error "Failed to store embedding; ensure pgvector is installed") ∧
    (store_embedding wfC1 tEmpty 3 (storeArgsFor sha256Stub nodeC1 (text_full nodeC1)
        { model_name := "siglip", modality := "image", dimension := 4,
          source_part := "full", priority := 2 })).2 =
      .ok { id := 0,
            key := { node_id := "n1", chunk_id := none, modality := "image",
                     model_name := "siglip", source_part := "full" },
            dimension := 4, generated_at := 3 } :=
  ⟨rfl, rfl, rfl⟩

/-- C1 amended: in `generate_for_node` the per-model writes are attempted
in order with no per-model exception handling: when two pairs are selected
and the first store succeeds while the second fails, the call returns the
store error and no summaries — the successful summary of the first model is not
reported (though its table write persists in the returned state); a fortiori
a failing first store aborts before later models are attempted. -/
theorem C1_amended_store_failure_propagates (sha256 : List Nat → List Nat) (db : GenDb)
    (wf : StoreArgs → Bool) (t : EmbTable) (now : Nat) (node_id : String)
    (mn : Option String) (node : NodeRow) (m1 m2 : SelModel) (c1 c2 : String)
    (hnode : (db.nodes.filter (fun n => n.id == node_id)).head? = some node)
    (hne : text_full node ≠ "")
    (hsel : select_models db node.type mn = .ok [m1, m2])
    (hc1 : contentFor node m1 = .ok c1)
    (hwf1 : wf (storeArgsFor sha256 node c1 m1) = false)
    (hc2 : contentFor node m2 = .ok c2)
    (hwf2 : wf (storeArgsFor sha256 node c2 m2) = true) :
    generate_for_node sha256 db wf t now node_id mn =
      ((store_embedding wf t now (storeArgsFor sha256 node c1 m1)).1,
        .error "Failed to store embedding; ensure pgvector is installed") := by
  have hbe : (text_full node == "") = false := beq_eq_false_iff_ne.mpr hne
  simp only [generate_for_node, hnode, hbe, Bool.false_eq_true, if_false, hsel,
    generateLoop, hc1, hc2, store_embedding_eq_ok wf t now (storeArgsFor sha256 node c1 m1) hwf1]
  rw [store_embedding_eq_err wf _ now (storeArgsFor sha256 node c2 m2) hwf2]

/-- Witness for C1 amended: over `dbC1`, the jina write succeeds and the
siglip write fails; the call still errors. -/
theorem C1_amended_store_failure_propagates_witness :
    generate_for_node sha256Stub dbC1 wfC1b tEmpty 3 "n1" none =
      ((store_embedding wfC1b tEmpty 3 (storeArgsFor sha256Stub nodeC1 "T"
          { model_name := "jina-embeddings-v2", modality := "text", dimension := 8,
            source_part := "title", priority := 1 })).1,
        .error "Failed to store embedding; ensure pgvector is installed") :=
  C1_amended_store_failure_propagates sha256Stub dbC1 wfC1b tEmpty 3 "n1" none nodeC1
    { model_name := "jina-embeddings-v2", modality := "text", dimension := 8,
      source_part := "title", priority := 1 }
    { model_name := "siglip", modality := "image", dimension := 4,
      source_part := "full", priority := 2 }
    "T" (text_full nodeC1) rfl (by decide) rfl rfl rfl rfl rfl

/-- The lexical-only form of a request: vector search neither flagged nor
implied by a supplied query vector. -/
def lexicalizeReq (req : SearchRequest) : SearchRequest :=
  { req with use_vector := false, query_embedding := none }

theorem searchInner_node (sha256 : List Nat → List Nat) (req : SearchRequest)
    (db : SearchDb) (h : req.mode = SearchMode.node) :
    searchInner sha256 req db = search_nodes sha256 req db := by
  unfold searchInner
  rw [h]
  rfl

theorem searchInner_chunk (sha256 : List Nat → List Nat) (req : SearchRequest)
    (db : SearchDb) (h : req.mode = SearchMode.chunk) :
    searchInner sha256 req db = search_chunks sha256 req db := by
  unfold searchInner
  rw [h]
  rfl

theorem search_nodes_hybrid_error (sha256 : List Nat → List Nat) (req : SearchRequest)
    (db : SearchDb) (e' : PyErr) (h : hybrid_node_search sha256 req db = .error e') :
    search_nodes sha256 req db = bm25_node_search req db := by
  unfold search_nodes
  by_cases hc : (req.use_vector || pyTruthyList req.query_embedding) = true
  · rw [if_pos hc, h]
  · rw [if_neg hc]

theorem search_chunks_hybrid_error (sha256 : List Nat → List Nat) (req : SearchRequest)
    (db : SearchDb) (e' : PyErr) (h : hybrid_chunk_search sha256 req db = .error e') :
    search_chunks sha256 req db = lex_chunk_search req db := by
  unfold search_chunks
  by_cases hc : (req.use_vector || pyTruthyList req.query_embedding) = true
  · rw [if_pos hc, h]
  · rw [if_neg hc]

theorem search_nodes_lexicalized (sha256 : List Nat → List Nat) (req : SearchRequest)
    (db : SearchDb) :
    search_nodes sha256 (lexicalizeReq req) db = bm25_node_search req db := rfl

theorem search_chunks_lexicalized (sha256 : List Nat → List Nat) (req : SearchRequest)
    (db : SearchDb) :
    search_chunks sha256 (lexicalizeReq req) db = lex_chunk_search req db := rfl

theorem search_nodes_always_bm25 (sha256 : List Nat → List Nat) (req : SearchRequest)
    (db : SearchDb)
    (hn : ∀ q v m a l t, db.hybridNode q v m a l t = .error ()) :
    search_nodes sha256 req db = bm25_node_search req db := by
  cases hgm : get_model_info db req.model_name with
  | error e =>
      exact search_nodes_hybrid_error sha256 req db e
        (by simp only [hybrid_node_search, hgm])
  | ok model =>
      exact search_nodes_hybrid_error sha256 req db .db
        (by simp only [hybrid_node_search, hgm, hn])

theorem search_chunks_always_lex (sha256 : List Nat → List Nat) (req : SearchRequest)
    (db : SearchDb)
    (hc : ∀ q v m a l lang, db.hybridChunks q v m a l lang = .error ()) :
    search_chunks sha256 req db = lex_chunk_search req db := by
  cases hgm : get_model_info db req.model_name with
  | error e =>
      exact search_chunks_hybrid_error sha256 req db e
        (by simp only [hybrid_chunk_search, hgm])
  | ok model =>
      exact search_chunks_hybrid_error sha256 req db .db
        (by simp only [hybrid_chunk_search, hgm, hc])

/-- C3: when the vector sub-call (`hybrid_search` / `hybrid_search_chunks`)
fails, the request is answered exactly as the corresponding lexical-only
request: the failure is absorbed inside the orchestrator and the caller gets
the lexical result list, in both node mode and chunk mode. -/
theorem C3_vector_failure_absorbed (sha256 : List Nat → List Nat) (req : SearchRequest)
    (db : SearchDb)
    (hn : ∀ q v m a l t, db.hybridNode q v m a l t = .error ())
    (hc : ∀ q v m a l lang, db.hybridChunks q v m a l lang = .error ()) :
    search sha256 req db = search sha256 (lexicalizeReq req) db := by
  have hinner : searchInner sha256 req db =
      searchInner sha256 (lexicalizeReq req) db := by
    cases hm : req.mode with
    | node =>
        rw [searchInner_node sha256 req db hm,
          searchInner_node sha256 (lexicalizeReq req) db hm,
          search_nodes_always_bm25 sha256 req db hn, search_nodes_lexicalized sha256 req db]
    | chunk =>
        rw [searchInner_chunk sha256 req db hm,
          searchInner_chunk sha256 (lexicalizeReq req) db hm,
          search_chunks_always_lex sha256 req db hc, search_chunks_lexicalized sha256 req db]
  simp only [search]
  rw [hinner]

/-- The BM25 result row used by the concrete search databases. -/
def rowBm : BmNodeRow :=
  { node_id := "n1", node_type := some "note", title := some "AI",
    bm25_score := some (3 / 2) }

/-- Database for the C2 scenario: the registry is empty (every model name is
unknown) while the ParadeDB BM25 query succeeds. -/
def dbC2 : SearchDb :=
  { embedding_models := [],
    paradeNode := fun _ _ _ => .ok [rowBm],
    tsNode := fun _ _ _ => .ok [],
    hybridNode := fun _ _ _ _ _ _ => .ok [],
    chunksLex := fun _ _ _ _ _ _ => .ok [],
    hybridChunks := fun _ _ _ _ _ _ => .ok [],
    track := fun _ => .ok () }

/-- A node-mode request asking for vector search with the default model. -/
def reqC2 : SearchRequest := { query := "ai", use_vector := true }

/-- Database for the C3 witness: a valid registry but both hybrid SQL
functions raise. -/
def dbC3 : SearchDb :=
  { dbC2 with
    embedding_models := regC6,
    hybridNode := fun _ _ _ _ _ _ => .error (),
    hybridChunks := fun _ _ _ _ _ _ => .error () }

/-- Witness for C3: with both vector engines failing over `dbC3`, the
vector-requested search equals the lexical-only search. -/
theorem C3_vector_failure_absorbed_witness :
    search sha256Stub reqC2 dbC3 = search sha256Stub (lexicalizeReq reqC2) dbC3 :=
  C3_vector_failure_absorbed sha256Stub reqC2 dbC3
    (fun _ _ _ _ _ _ => rfl) (fun _ _ _ _ _ _ => rfl)

/-- C2 counterexample: `reqC2` asks for vector search and its model name
matches no active descriptor (`get_model_info` raises `UnknownModel`), yet
the search succeeds with the BM25 result list — the error is not surfaced
and results are returned by the lexical path. -/
theorem C2_counterexample_unknown_model_not_surfaced :
    get_model_info dbC2 reqC2.model_name =
      .error (.http 400 "Unknown embedding model jina-embeddings-v2") ∧
    reqC2.use_vector = true ∧
    search sha256Stub reqC2 dbC2 =
      .ok [{ node_id := "n1", node_type := some "note", title := some "AI",
             bm25_score := some (3 / 2) }] :=
  ⟨rfl, rfl, rfl⟩

/-- C2 amended: when vector search is requested with a model name that
resolves to no active descriptor, the `UnknownModel` (HTTP 400) error raised
inside the vector attempt is absorbed by the blanket fallback: the request is
answered exactly as the corresponding lexical-only request, and no error is
surfaced unless the lexical path itself fails. -/
theorem C2_amended_unknown_model_falls_back (sha256 : List Nat → List Nat)
    (req : SearchRequest) (db : SearchDb) (e : PyErr)
    (hv : (req.use_vector || pyTruthyList req.query_embedding) = true)
    (hm : get_model_info db req.model_name = .error e) :
    search sha256 req db = search sha256 (lexicalizeReq req) db := by
  have hinner : searchInner sha256 req db =
      searchInner sha256 (lexicalizeReq req) db := by
    cases hmo : req.mode with
    | node =>
        rw [searchInner_node sha256 req db hmo,
          searchInner_node sha256 (lexicalizeReq req) db hmo,
          search_nodes_hybrid_error sha256 req db e
            (by simp only [hybrid_node_search, hm]),
          search_nodes_lexicalized sha256 req db]
    | chunk =>
        rw [searchInner_chunk sha256 req db hmo,
          searchInner_chunk sha256 (lexicalizeReq req) db hmo,
          search_chunks_hybrid_error sha256 req db e
            (by simp only [hybrid_chunk_search, hm]),
          search_chunks_lexicalized sha256 req db]
  simp only [search]
  rw [hinner]

/-- Witness for C2 amended at the concrete `dbC2` scenario. -/
theorem C2_amended_unknown_model_falls_back_witness :
    (reqC2.use_vector || pyTruthyList reqC2.query_embedding) = true ∧
    get_model_info dbC2 reqC2.model_name =
      .error (.http 400 "Unknown embedding model jina-embeddings-v2") ∧
    search sha256Stub reqC2 dbC2 = search sha256Stub (lexicalizeReq reqC2) dbC2 :=
  ⟨rfl, rfl,
    C2_amended_unknown_model_falls_back sha256Stub reqC2 dbC2
      (.http 400 "Unknown embedding model jina-embeddings-v2") rfl rfl⟩

/-- C8: per-item access tracking after the results are computed is
best-effort: whatever the tracker outcomes, the response equals the response
under an always-succeeding tracker, and it equals the raw result list of the
mode dispatch — a tracking failure can neither fail nor truncate it. -/
theorem C8_tracking_best_effort (sha256 : List Nat → List Nat) (req : SearchRequest)
    (db : SearchDb) (tr : String → Except Unit Unit) :
    search sha256 req { db with track := tr } =
      search sha256 req { db with track := fun _ => .ok () } ∧
    search sha256 req { db with track := tr } =
      searchInner sha256 req { db with track := tr } := by
  have hin : searchInner sha256 req { db with track := tr } =
      searchInner sha256 req { db with track := fun _ => .ok () } := rfl
  constructor
  · simp only [search]
    rw [hin]
  · simp only [search]
    cases searchInner sha256 req { db with track := tr } <;> rfl

/-- A second digest stand-in, used to vary the embedder in the C9 witness. -/
def sha256StubB : List Nat → List Nat := fun _ => List.replicate 32 7

/-- C9: a node-mode request with `use_vector = false` and no supplied
query embedding is answered without consulting the model registry or the
deterministic embedder: the response is invariant under replacing both
(noninterference) and under arbitrary changes to the request fields `model_name`
and `alpha`. -/
theorem C9_lexical_node_ignores_model_fields (sha256 sha256' : List Nat → List Nat)
    (req : SearchRequest) (db : SearchDb) (reg' : List ModelRow) (m' : String) (a' : ℚ)
    (hmode : req.mode = SearchMode.node) (hv : req.use_vector = false)
    (hq : req.query_embedding = none) :
    search sha256 req db =
      search sha256' { req with model_name := m', alpha := a' }
        { db with embedding_models := reg' } := by
  cases req with
  | mk q l mo uv qe al mn nt lang ic cs =>
      obtain rfl : mo = SearchMode.node := hmode
      obtain rfl : uv = false := hv
      obtain rfl : qe = (none : Option (List ℚ)) := hq
      cases db with
      | mk em pn tn hn cl hc tr => rfl

/-- Witness for C9: concrete lexical-only request answered identically under
a different registry, embedder, model name and alpha. -/
theorem C9_lexical_node_ignores_model_fields_witness :
    ({ query := "ai" : SearchRequest }.mode = SearchMode.node ∧
     { query := "ai" : SearchRequest }.use_vector = false ∧
     { query := "ai" : SearchRequest }.query_embedding = none) ∧
    search sha256Stub { query := "ai" } dbC3 =
      search sha256StubB
        { { query := "ai" : SearchRequest } with model_name := "other", alpha := 1 }
        { dbC3 with embedding_models := [] } :=
  ⟨⟨rfl, rfl, rfl⟩,
    C9_lexical_node_ignores_model_fields sha256Stub sha256StubB { query := "ai" } dbC3
      [] "other" 1 rfl rfl rfl⟩

theorem create_embedding_table_eq (sha256 : List Nat → List Nat) (pyStr : ℚ → String)
    (wf : StoreArgs → Bool) (t : EmbTable) (now : Nat) (p : EmbeddingCreate) :
    (create_embedding sha256 pyStr wf t now p).1 =
      (store_embedding wf t now (argsOfCreate sha256 pyStr p)).1 := by
  cases hst : store_embedding wf t now (argsOfCreate sha256 pyStr p) with
  | mk t' r => cases r <;> simp [create_embedding, hst]

/-- C10: when `POST /embeddings` is called with `content_hash` omitted,
the stored content hash is the sha256 hexdigest of the components of the vector
stringified and joined with `"|"` — a function of the vector values alone —
so two hash-omitted requests supplying the same vector store the same
content hash. -/
theorem C10_default_content_hash (sha256 : List Nat → List Nat) (pyStr : ℚ → String)
    (wf : StoreArgs → Bool) (t t' : EmbTable) (now now' : Nat) (p q : EmbeddingCreate)
    (hp : p.content_hash = none) (hq : q.content_hash = none)
    (heq : q.embedding = p.embedding)
    (hwp : wf (argsOfCreate sha256 pyStr p) = false)
    (hwq : wf (argsOfCreate sha256 pyStr q) = false) :
    (∃ r, findRow (create_embedding sha256 pyStr wf t now p).1
        (argsOfCreate sha256 pyStr p).key = some r ∧
      r.content_hash = vectorHash sha256 pyStr p.embedding) ∧
    (∃ r, findRow (create_embedding sha256 pyStr wf t' now' q).1
        (argsOfCreate sha256 pyStr q).key = some r ∧
      r.content_hash = vectorHash sha256 pyStr p.embedding) := by
  have hph : (argsOfCreate sha256 pyStr p).content_hash =
      vectorHash sha256 pyStr p.embedding := by
    simp [argsOfCreate, hp, pyOrStr]
  have hqh : (argsOfCreate sha256 pyStr q).content_hash =
      vectorHash sha256 pyStr p.embedding := by
    simp [argsOfCreate, hq, pyOrStr, heq]
  constructor
  · obtain ⟨r, hr, hch, -, -, -, -⟩ := findRow_after_store wf t now _ hwp
    exact ⟨r, by rw [create_embedding_table_eq]; exact hr, by rw [hch, hph]⟩
  · obtain ⟨r, hr, hch, -, -, -, -⟩ := findRow_after_store wf t' now' _ hwq
    exact ⟨r, by rw [create_embedding_table_eq]; exact hr, by rw [hch, hqh]⟩

/-- Stand-in for Python `str` on floats, used only to instantiate witnesses. -/
def pyStrStub : ℚ → String := fun v => toString v.num

/-- First hash-omitted payload of the C10 witness. -/
def pC10 : EmbeddingCreate :=
  { node_id := "n1", modality := "text", model_name := "jina-embeddings-v2",
    source_part := "full", embedding := [1 / 2, 1] }

/-- Second hash-omitted payload with the same vector, different node. -/
def qC10 : EmbeddingCreate :=
  { node_id := "n2", modality := "text", model_name := "jina-embeddings-v2",
    source_part := "full", embedding := [1 / 2, 1] }

/-- Witness for C10: both payloads store the hash derived from the shared
vector. -/
theorem C10_default_content_hash_witness :
    (pC10.content_hash = none ∧ qC10.content_hash = none ∧
      qC10.embedding = pC10.embedding) ∧
    (∃ r, findRow (create_embedding sha256Stub pyStrStub wfNever tEmpty 1 pC10).1
        (argsOfCreate sha256Stub pyStrStub pC10).key = some r ∧
      r.content_hash = vectorHash sha256Stub pyStrStub pC10.embedding) ∧
    (∃ r, findRow (create_embedding sha256Stub pyStrStub wfNever tEmpty 2 qC10).1
        (argsOfCreate sha256Stub pyStrStub qC10).key = some r ∧
      r.content_hash = vectorHash sha256Stub pyStrStub pC10.embedding) :=
  ⟨⟨rfl, rfl, rfl⟩,
    C10_default_content_hash sha256Stub pyStrStub wfNever tEmpty tEmpty 1 2 pC10 qC10
      rfl rfl rfl rfl rfl⟩
